import Mathlib

/-!
Shallow embedding of the natural-language-to-SQL retry core of the
`agentic-ai-1` repository, together with proofs about it.

The embedded code comes from
`medical_student_analysis/agents/database_agent.py` (class `DatabaseAgent`),
`medical_student_analysis/orchestrator.py` (`main`), and the standalone
script `others/agentic_sql_gemini_v2.py`.

Strings are modelled with Lean `String` values; Python string methods
(`strip`, `upper`, `lower`, `in`) and the single regular expression used by
the code are given explicit executable definitions over `List Char`.
All character-class functions use the ASCII ranges, which is what the data
flowing through this program consists of.
-/

/-- The ASCII whitespace characters: the set matched by the regex class
`\s` and stripped by Python `str.strip` (for ASCII input). -/
def isPySpace (c : Char) : Bool :=
  c == ' ' || c == '\t' || c == '\n' || c == '\r' || c == '\x0b' || c == '\x0c'

/-- Python `str.strip()`: drop leading and trailing whitespace. -/
def pyStrip (s : String) : String :=
  String.mk (((s.data.dropWhile isPySpace).reverse.dropWhile isPySpace).reverse)

/-- Python `str.rstrip()`: drop trailing whitespace only. -/
def pyRstrip (s : String) : String :=
  String.mk ((s.data.reverse.dropWhile isPySpace).reverse)

/-- Python `str.upper()` (ASCII). -/
def pyUpper (s : String) : String :=
  String.mk (s.data.map Char.toUpper)

/-- Python `str.lower()` (ASCII). -/
def pyLower (s : String) : String :=
  String.mk (s.data.map Char.toLower)

/-- Concatenation of a list of strings (the `+=` accumulation loops). -/
def strJoin : List String → String
  | [] => ""
  | s :: rest => s ++ strJoin rest

/-- Join a list of strings with a separator between consecutive elements. -/
def strIntercalate (sep : String) : List String → String
  | [] => ""
  | [s] => s
  | s :: rest => s ++ sep ++ strIntercalate sep rest

/-- Does `pat` occur as a contiguous substring of `hay`?  (Python `in`.) -/
def listContains (hay pat : List Char) : Bool :=
  match hay with
  | [] => pat.isEmpty
  | _ :: t => pat.isPrefixOf hay || listContains t pat

/-- Python `pat in s` on strings. -/
def containsSubstr (s pat : String) : Bool :=
  listContains s.data pat.data

/-- Python `str(x)` on an optional string: `None` prints as `"None"`.
Used because f-string interpolation of the variable `previous_sql`
renders `None` literally when no SQL has been stored yet. -/
def pyStrOpt : Option String → String
  | none => "None"
  | some s => s

/-! ## The SQL extractor / validator

Source (identical in `database_agent.py` lines 140-150 and
`agentic_sql_gemini_v2.py` lines 124-145):

    match = re.search(r"(SELECT\s.+?;)", text, re.IGNORECASE | re.DOTALL)
    if not match:
        raise ValueError("No valid SELECT statement found in LLM response.")
    sql = match.group(1).strip()
    if "TOP" in sql.upper():
        raise ValueError("Invalid keyword 'TOP' for MySQL. Use LIMIT instead.")
    return sql

The regex semantics: a match at position `i` requires the six characters at
`i` to spell `SELECT` case-insensitively, the character at `i+6` to be in
`\s`, and (because `.+?` must consume at least one character before the
final `;`, and `.` matches `;` as well under `DOTALL`) a semicolon at some
position `j ≥ i+8`; the lazy quantifier makes the match end at the first
such `j`.  `re.search` takes the leftmost position at which a match exists.
-/

/-- Case-insensitive comparison of six characters with `SELECT`. -/
def matchesSelectCI (a b c d e f : Char) : Bool :=
  a.toUpper == 'S' && b.toUpper == 'E' && c.toUpper == 'L' &&
  d.toUpper == 'E' && e.toUpper == 'C' && f.toUpper == 'T'

/-- Index of the first `;` in a character list, if any. -/
def findSemi : List Char → Option Nat
  | [] => none
  | c :: cs => if c == ';' then some 0 else (findSemi cs).map (· + 1)

/-- Attempt of the regex `SELECT\s.+?;` (IGNORECASE, DOTALL) anchored at the
head of `cs`; returns the matched text on success. -/
def matchSelectAt (cs : List Char) : Option (List Char) :=
  match cs with
  | a :: b :: c :: d :: e :: f :: w :: _ :: ds =>
    if matchesSelectCI a b c d e f && isPySpace w then
      match findSemi ds with
      | some k => some (cs.take (9 + k))
      | none => none
    else none
  | _ => none

/-- `re.search` of `SELECT\s.+?;` over the whole text: try every start
position from the left, return the first match. -/
def reSearchSelect : List Char → Option (List Char)
  | [] => none
  | c :: cs =>
    match matchSelectAt (c :: cs) with
    | some m => some m
    | none => reSearchSelect cs

/-- Error message for a response with no extractable statement. -/
def noStatementError : String := "No valid SELECT statement found in LLM response."

/-- Error message for the disallowed row-limiting keyword. -/
def topKeywordError : String := "Invalid keyword \x27TOP\x27 for MySQL. Use LIMIT instead."

/-- `extract_valid_sql` / `DatabaseAgent._extract_valid_sql`: extract the
first `SELECT ... ;` match, strip it, and reject it when its uppercased
text contains `TOP`. -/
def extract_valid_sql (text : String) : Except String String :=
  match reSearchSelect text.data with
  | none => .error noStatementError
  | some m =>
    let sql := pyStrip (String.mk m)
    if containsSubstr (pyUpper sql) "TOP" then .error topKeywordError
    else .ok sql

/-! ### Specification-side definitions for the extractor claims -/

/-- Modelled from the spec: the extraction rule as §4.3 words it — "a SELECT
keyword, case-insensitive, followed (across any number of lines) by
arbitrary text, up to and including the next semicolon" — anchored at the
head of `cs`.  Unlike the code's regex it does not require a whitespace
character after the keyword, nor a minimum distance to the semicolon. -/
def specMatchSelectAt (cs : List Char) : Option (List Char) :=
  match cs with
  | a :: b :: c :: d :: e :: f :: rest =>
    if matchesSelectCI a b c d e f then
      match findSemi rest with
      | some k => some (cs.take (7 + k))
      | none => none
    else none
  | _ => none

/-- Modelled from the spec: the first substring of the text matching the
§4.3 extraction rule. -/
def specSearchSelect : List Char → Option (List Char)
  | [] => none
  | c :: cs =>
    match specMatchSelectAt (c :: cs) with
    | some m => some m
    | none => specSearchSelect cs

/-- Identifier characters, for deciding whether an occurrence of `TOP` is a
whole token rather than part of a longer word. -/
def identChar (c : Char) : Bool :=
  c.isAlphanum || c == '_'

/-- Does the list start with the three letters `TOP` (case-insensitive) as a
delimited token, given the character immediately before (if any)? -/
def isTopTokenAt (prev : Option Char) (l : List Char) : Bool :=
  match l with
  | t :: o :: p :: rest =>
    t.toUpper == 'T' && o.toUpper == 'O' && p.toUpper == 'P' &&
    (match prev with | none => true | some c => !identChar c) &&
    (match rest with | [] => true | r :: _ => !identChar r)
  | _ => false

/-- Scan for a delimited, case-insensitive `TOP` token. -/
def hasTopTokenGo (prev : Option Char) : List Char → Bool
  | [] => false
  | c :: cs => isTopTokenAt prev (c :: cs) || hasTopTokenGo (some c) cs

/-- Modelled from the spec: "contains the case-insensitive token for the
foreign TOP row-limiting syntax" — `TOP` delimited by non-identifier
characters (or the ends of the statement). -/
def hasTopToken (s : String) : Bool :=
  hasTopTokenGo none s.data

/-! ## Prompt construction

`DatabaseAgent._build_sql_prompt` (database_agent.py lines 94-138).  The
Gemini `contents` wrapper holds a single text part, so the prompt is
modelled as that text string. -/

/-- The fixed rule preamble of `DatabaseAgent._build_sql_prompt`. -/
def system_instruction : String :=
  "\n" ++
  "You are a SQL expert. You will receive a database schema and a user question.\n" ++
  "Your task is to generate a valid MySQL SELECT query that answers the user\x27s question.\n" ++
  "\n" ++
  "You MUST adhere to these rules:\n" ++
  "- Use ONLY table and column names exactly as provided in the schema.\n" ++
  "- NEVER invent or singularize table names.\n" ++
  "- Output ONLY a valid MySQL SELECT statement, ending with a semicolon.\n" ++
  "- Do NOT include any explanations, comments, or additional text outside of the SQL query.\n" ++
  "- Use backticks (\x60) for quoting identifiers if needed.\n" ++
  "- Use LIMIT instead of TOP for row limiting.\n" ++
  "\n" ++
  "IMPORTANT SEMANTIC INSTRUCTIONS:\n" ++
  "- If the user\x27s question refers to or implies specific \x27students\x27 (e.g., \x27best student\x27, \x27top performer\x27, \x27healthiest student\x27), you MUST include their \x60first_name\x60 and \x60last_name\x60 from the \x60Students\x60 table in your SELECT clause.\n" ++
  "- Ensure you join all necessary tables (e.g., \x60Students\x60, \x60Enrollments\x60, \x60Courses\x60) to retrieve all information relevant to the question.\n" ++
  "- Always aim to provide complete data that allows identification of individuals mentioned in the question.\n"

/-- `DatabaseAgent._build_sql_prompt`: schema/question block, optionally
prefixed by the previous-failure block, with the trailing `Output:` cue. -/
def build_sql_prompt (user_question schema : String)
    (error_message previous_sql : Option String) : String :=
  let base := "\nSchema:\n" ++ schema ++ "\n\nQuestion: \"" ++ user_question ++ "\"\n"
  let umc :=
    match error_message with
    | none => base
    | some err =>
      "\nYou previously generated this SQL which failed:\n\n" ++
      pyStrOpt previous_sql ++
      "\n\nThe error was:\n" ++ err ++
      "\n\nTry again. ONLY use the tables and columns listed in this schema.\n\n" ++
      base ++ "\n"
  system_instruction ++ "\n\n" ++ (umc ++ "\nOutput:")

/-- The fixed rule preamble of the standalone script `build_prompt`
(agentic_sql_gemini_v2.py lines 78-89). -/
def system_instruction_v2 : String :=
  "\n" ++
  "You are a SQL expert. You will receive a database schema and a user question.\n" ++
  "Your task is to generate a valid MySQL SELECT query that answers the user\x27s question.\n" ++
  "\n" ++
  "You MUST adhere to these rules:\n" ++
  "- Use ONLY table and column names exactly as provided in the schema.\n" ++
  "- NEVER invent or singularize table names (e.g., use \x27Students\x27 if that\x27s in the schema, not \x27Student\x27).\n" ++
  "- Output ONLY a valid MySQL SELECT statement, ending with a semicolon.\n" ++
  "- Do NOT include any explanations, comments, or additional text outside of the SQL query.\n" ++
  "- Use backticks (\x60) for quoting identifiers if they contain special characters or are reserved words.\n" ++
  "- Use LIMIT instead of TOP for row limiting.\n"

/-- `build_prompt` of agentic_sql_gemini_v2.py (lines 62-119): the base
block ends with `Output:` before the optional failure prefix is added. -/
def build_prompt (user_question schema : String)
    (error_message previous_sql : Option String) : String :=
  let base := "\nSchema:\n" ++ schema ++ "\n\nQuestion: \"" ++ user_question ++ "\"\n\nOutput:\n"
  let umc :=
    match error_message with
    | none => base
    | some err =>
      "\nYou previously generated this SQL which failed:\n\n" ++
      pyStrOpt previous_sql ++
      "\n\nThe error was:\n" ++ err ++
      "\n\nTry again. ONLY use the tables and columns listed in this schema.\n\n" ++
      base ++ "\n"
  system_instruction_v2 ++ "\n\n" ++ umc

/-! ## Schema introspection and rendering

`DatabaseAgent.get_schema` (database_agent.py lines 38-92) and
`get_db_schema` (agentic_sql_gemini_v2.py lines 14-57).  The database
connection is configured with `pymysql.cursors.DictCursor`, so every
fetched row is a dict; a dict with its insertion order is modelled as an
association list `List (String × String)`.  The result of
`SHOW COLUMNS FROM t` is abstracted as a function from table name to its
`(Field, Type)` pairs, which is exactly what the loop body reads. -/

/-- A fetched row (DictCursor): ordered key/value pairs. -/
abbrev Row := List (String × String)

/-- A fetched result set. -/
abbrev ResultSet := List Row

/-- One line of the rendered schema: `- <name> (<type>)\n`
(the `schema +=` statement inside the column loop). -/
def renderColumn (c : String × String) : String :=
  "- " ++ c.1 ++ " (" ++ c.2 ++ ")" ++ "\n"

/-- One table block of the rendered schema: header, column lines, and the
blank separating line (the body of the `for table in tables` loop). -/
def renderTable (t : String × List (String × String)) : String :=
  "Table: " ++ t.1 ++ "\n" ++ strJoin (t.2.map renderColumn) ++ "\n"

/-- The rendering loop of both `get_schema` and `get_db_schema` applied to
an already-extracted table list, followed by the final `.strip()`. -/
def renderSchemaText (tables : List (String × List (String × String))) : String :=
  pyStrip (strJoin (tables.map renderTable))

/-- The table-name key search of `DatabaseAgent.get_schema`
(lines 59-63): the first key of the first row whose lowercase form starts
with `tables_in_` or equals `table`. -/
def find_table_key (row : Row) : Option String :=
  (row.find? (fun kv =>
    "tables_in_".data.isPrefixOf (pyLower kv.1).data || pyLower kv.1 == "table")).map (·.1)

/-- `DatabaseAgent.get_schema` (lines 44-92), for the DictCursor shape the
agent configures.  `fetched` is the result of `SHOW TABLES`; `columnsOf`
gives the `(Field, Type)` pairs of `SHOW COLUMNS FROM` each table.
Returns `none` where the Python returns `None`. -/
def get_schema (fetched : List Row)
    (columnsOf : String → List (String × String)) : Option String :=
  let tablesOpt : Option (List String) :=
    match fetched with
    | [] => some []
    | first :: _ =>
      match find_table_key first with
      | some k => some (fetched.map (fun row => (row.lookup k).getD ""))
      | none => none
  match tablesOpt with
  | none => none
  | some tables =>
    if tables.isEmpty then none
    else some (renderSchemaText (tables.map (fun t => (t, columnsOf t))))

/-- `get_db_schema` of agentic_sql_gemini_v2.py (lines 14-57): same
rendering, but the table list comes from the fixed key
`Tables_in_<db_name>` and there is no empty-table or missing-key failure
path — an empty `SHOW TABLES` result yields the empty string. -/
def get_db_schema (fetched : List Row) (db_name : String)
    (columnsOf : String → List (String × String)) : String :=
  let tables : List String :=
    match fetched with
    | [] => []
    | _ :: _ => fetched.map (fun row => (row.lookup ("Tables_in_" ++ db_name)).getD "")
  renderSchemaText (tables.map (fun t => (t, columnsOf t)))

/-- The orchestrator guard (orchestrator.py lines 56-62): after
`schema = db_agent.get_schema()`, the flow continues to
`query_database` only when `schema` is truthy (`if not schema: return`). -/
def orchestrator_proceeds_to_query (schema : Option String) : Bool :=
  match schema with
  | none => false
  | some s => !(s == "")

/-! ### Specification-side schema rendering (claim C8) -/

/-- Modelled from the spec: one column line `- <name> (<type>)` (§4.1). -/
def specColumnLine (c : String × String) : String :=
  "- " ++ c.1 ++ " (" ++ c.2 ++ ")"

/-- Modelled from the spec: one block per table — the header line
`Table: <name>` followed by one line per column (§4.1). -/
def specTableBlock (t : String × List (String × String)) : String :=
  strIntercalate "\n" (("Table: " ++ t.1) :: t.2.map specColumnLine)

/-- Modelled from the spec: blocks separated by a blank line, whole text
right-trimmed (§4.1). -/
def specSchemaText (tables : List (String × List (String × String))) : String :=
  pyRstrip (strIntercalate "\n\n" (tables.map specTableBlock))

/-! ## The generate-validate-execute retry loop

`DatabaseAgent.query_database` (database_agent.py lines 152-193) and the
`while attempt < MAX_RETRIES` loop of agentic_sql_gemini_v2.py
(lines 195-257).

Collaborators are passed as functions:
* `llm i` is the text of the `generate_content` response of the iteration
  whose `attempt` counter equals `i` (every earlier iteration failed, so
  the `attempt` value identifies the generation call), or the message of
  the exception the call raised;
* `db sql` is the `cursor.execute`/`fetchall` outcome: the fetched rows,
  or the message of the raised `pymysql.Error`.

The `while` loop runs `attempt` from its current value up to
`max_retries`; the recursion is on `remaining = max_retries - attempt`,
which falls by one on every failed iteration exactly as the Python
counter rises by one.  Besides the returned value the trace records the
observable events of the run: the number of `generate_content` calls, the
prompt of each call, every statement passed to `cursor.execute`, and the
final values of the `error_message` / `sql_query` locals. -/

structure RunTrace where
  /-- The Python return value: `data` on success, `None` on exhaustion. -/
  result : Option ResultSet
  /-- Number of `generate_content` calls performed. -/
  genCalls : Nat
  /-- Prompt text of each generation call, in order. -/
  prompts : List String
  /-- Every SQL string passed to `cursor.execute`, in order. -/
  executed : List String
  /-- The `error_message` local variable when the loop ended. -/
  lastError : Option String
  /-- The `sql_query` local variable when the loop ended. -/
  lastSql : Option String
  deriving Repr, DecidableEq

/-- The body of `DatabaseAgent.query_database`, one `while` iteration per
`remaining` step. -/
def query_database_go (llm : Nat → Except String String)
    (db : String → Except String ResultSet)
    (user_question schema : String) (attempt : Nat)
    (error_message sql_query : Option String) : Nat → RunTrace
  | 0 =>
    { result := none
      genCalls := 0
      prompts := []
      executed := []
      lastError := error_message
      lastSql := sql_query }
  | remaining + 1 =>
    let prompt := build_sql_prompt user_question schema error_message sql_query
    match llm attempt with
    | .error e =>
      let t := query_database_go llm db user_question schema (attempt + 1)
        (some e) sql_query remaining
      { t with
        genCalls := t.genCalls + 1
        prompts := prompt :: t.prompts }
    | .ok rawText =>
      let raw_response := pyStrip rawText
      match extract_valid_sql raw_response with
      | .error ve =>
        let t := query_database_go llm db user_question schema (attempt + 1)
          (some ve) sql_query remaining
        { t with
        genCalls := t.genCalls + 1
        prompts := prompt :: t.prompts }
      | .ok sql =>
        match db sql with
        | .error pe =>
          let t := query_database_go llm db user_question schema (attempt + 1)
            (some ("MySQL Error: " ++ pe)) (some sql) remaining
          { t with
            genCalls := t.genCalls + 1
            prompts := prompt :: t.prompts
            executed := sql :: t.executed }
        | .ok data =>
          { result := some data
            genCalls := 1
            prompts := [prompt]
            executed := [sql]
            lastError := error_message
            lastSql := some sql }

/-- `DatabaseAgent.query_database(user_question, schema, max_retries)`:
enter the loop with `attempt = 0`, `error_message = None`,
`sql_query = None`.  On success the rows are returned as they are — there
is no emptiness check in this variant; on exhaustion the method returns
`None`. -/
def query_database (llm : Nat → Except String String)
    (db : String → Except String ResultSet)
    (user_question schema : String) (max_retries : Nat) : RunTrace :=
  query_database_go llm db user_question schema 0 none none max_retries

/-- The body of the agentic_sql_gemini_v2.py attempt loop.  It differs from
`query_database_go` in three ways, mirroring the source: the prompt comes
from the script's `build_prompt`; a successful execution with zero rows
raises `ValueError("Query ran successfully but returned no results.")`
after `data` has already been assigned, so the loop retries; and the
`data` variable survives the loop, so exhaustion ends with whatever `data`
last held (`None` or an empty list — both falsy for the final report). -/
def script_loop_go (llm : Nat → Except String String)
    (db : String → Except String ResultSet)
    (user_question schema : String) (attempt : Nat)
    (error_message sql_query : Option String)
    (data : Option ResultSet) : Nat → RunTrace
  | 0 =>
    { result := data
      genCalls := 0
      prompts := []
      executed := []
      lastError := error_message
      lastSql := sql_query }
  | remaining + 1 =>
    let prompt := build_prompt user_question schema error_message sql_query
    match llm attempt with
    | .error e =>
      let t := script_loop_go llm db user_question schema (attempt + 1)
        (some e) sql_query data remaining
      { t with
        genCalls := t.genCalls + 1
        prompts := prompt :: t.prompts }
    | .ok rawText =>
      let raw_response := pyStrip rawText
      match extract_valid_sql raw_response with
      | .error ve =>
        let t := script_loop_go llm db user_question schema (attempt + 1)
          (some ve) sql_query data remaining
        { t with
        genCalls := t.genCalls + 1
        prompts := prompt :: t.prompts }
      | .ok sql =>
        match db sql with
        | .error pe =>
          let t := script_loop_go llm db user_question schema (attempt + 1)
            (some ("MySQL Error: " ++ pe)) (some sql) data remaining
          { t with
            genCalls := t.genCalls + 1
            prompts := prompt :: t.prompts
            executed := sql :: t.executed }
        | .ok d =>
          if d.isEmpty then
            let t := script_loop_go llm db user_question schema (attempt + 1)
              (some "Query ran successfully but returned no results.")
              (some sql) (some d) remaining
            { t with
              genCalls := t.genCalls + 1
              prompts := prompt :: t.prompts
              executed := sql :: t.executed }
          else
            { result := some d
              genCalls := 1
              prompts := [prompt]
              executed := [sql]
              lastError := error_message
              lastSql := some sql }

/-- The script's attempt loop entered from the top of the file:
`attempt = 0`, `error_message = None`, `sql_query = None`, `data = None`. -/
def script_loop (llm : Nat → Except String String)
    (db : String → Except String ResultSet)
    (user_question schema : String) (max_retries : Nat) : RunTrace :=
  script_loop_go llm db user_question schema 0 none none none max_retries

/-- The script's step-3-then-step-4 flow: introspect the schema with
`get_db_schema`, then run the attempt loop on whatever it returned — there
is no guard between the two steps. -/
def script_main (fetched : List Row) (db_name : String)
    (columnsOf : String → List (String × String))
    (llm : Nat → Except String String)
    (db : String → Except String ResultSet)
    (user_question : String) (max_retries : Nat) : RunTrace :=
  script_loop llm db user_question (get_db_schema fetched db_name columnsOf) max_retries


/-! ### Amended extraction rule (claim C5)

The code's regex does not accept every "SELECT … up to the next semicolon"
substring: it additionally demands a whitespace character right after the
keyword and at least one further character before the closing semicolon
(so the closing semicolon is the first one at offset at least 8 from the
start of the keyword).  The following definitions state that amended rule
positionally, with `take`/`drop` arithmetic instead of the pattern
decomposition used to translate the regex. -/

/-- Amended extraction rule anchored at the head of `cs`: the first six
characters uppercase to `SELECT`, the character at offset 6 is whitespace,
and the match extends up to and including the first semicolon at offset at
least 8. -/
def amendedMatchSelectAt (cs : List Char) : Option (List Char) :=
  match (cs.drop 6).head? with
  | none => none
  | some w =>
    if ((cs.take 6).map Char.toUpper == ['S', 'E', 'L', 'E', 'C', 'T']) && isPySpace w then
      match findSemi (cs.drop 8) with
      | some k => some (cs.take (8 + (k + 1)))
      | none => none
    else none

/-- Amended extraction rule over the whole text: first start position from
the left at which the amended rule matches. -/
def amendedSearchSelect : List Char → Option (List Char)
  | [] => none
  | c :: cs =>
    match amendedMatchSelectAt (c :: cs) with
    | some m => some m
    | none => amendedSearchSelect cs

/-! ### Concrete collaborator stubs used by counterexamples and witnesses -/

/-- LLM stub of the spec's retry scenario: a `TOP` statement on attempt 1,
a corrected `LIMIT` statement on attempt 2. -/
def llmStubTopThenLimit : Nat → Except String String := fun i =>
  if i = 0 then .ok "SELECT TOP 5 * FROM Students;"
  else .ok "SELECT * FROM Students LIMIT 5;"

/-- LLM stub that always answers with a fixed well-formed statement. -/
def llmStubGood : Nat → Except String String := fun _ =>
  .ok "SELECT a FROM t;"

/-- LLM stub whose responses never contain a SELECT statement. -/
def llmStubNoSql : Nat → Except String String := fun _ =>
  .ok "no sql here"

/-- Database stub returning a single one-column row for every statement. -/
def dbStubOneRow : String → Except String ResultSet := fun _ =>
  .ok [[("x", "1")]]

/-- Database stub returning zero rows for every statement. -/
def dbStubEmpty : String → Except String ResultSet := fun _ =>
  .ok []

/-- Database stub raising a `pymysql.Error` for every statement. -/
def dbStubError : String → Except String ResultSet := fun _ =>
  .error "boom"

/-! ## Helper lemmas -/

theorem query_database_go_genCalls_le (llm : Nat → Except String String)
    (db : String → Except String ResultSet) (q s : String) :
    ∀ (r a : Nat) (em sq : Option String),
      (query_database_go llm db q s a em sq r).genCalls ≤ r := by
  intro r
  induction r with
  | zero => intro a em sq; simp [query_database_go]
  | succ n ih =>
    intro a em sq
    cases hl : llm a with
    | error e =>
      have h2 := ih (a + 1) (some e) sq
      simp [query_database_go, hl]
      omega
    | ok raw =>
      cases he : extract_valid_sql (pyStrip raw) with
      | error ve =>
        have h2 := ih (a + 1) (some ve) sq
        simp [query_database_go, hl, he]
        omega
      | ok sql =>
        cases hd : db sql with
        | error pe =>
          have h2 := ih (a + 1) (some ("MySQL Error: " ++ pe)) (some sql)
          simp [query_database_go, hl, he, hd]
          omega
        | ok data =>
          simp [query_database_go, hl, he, hd]

theorem script_loop_go_genCalls_le (llm : Nat → Except String String)
    (db : String → Except String ResultSet) (q s : String) :
    ∀ (r a : Nat) (em sq : Option String) (d : Option ResultSet),
      (script_loop_go llm db q s a em sq d r).genCalls ≤ r := by
  intro r
  induction r with
  | zero => intro a em sq d; simp [script_loop_go]
  | succ n ih =>
    intro a em sq d
    cases hl : llm a with
    | error e =>
      have h2 := ih (a + 1) (some e) sq d
      simp [script_loop_go, hl]
      omega
    | ok raw =>
      cases he : extract_valid_sql (pyStrip raw) with
      | error ve =>
        have h2 := ih (a + 1) (some ve) sq d
        simp [script_loop_go, hl, he]
        omega
      | ok sql =>
        cases hd : db sql with
        | error pe =>
          have h2 := ih (a + 1) (some ("MySQL Error: " ++ pe)) (some sql) d
          simp [script_loop_go, hl, he, hd]
          omega
        | ok rows =>
          by_cases hrows : rows.isEmpty
          · have h2 := ih (a + 1)
              (some "Query ran successfully but returned no results.") (some sql) (some rows)
            simp [script_loop_go, hl, he, hd, hrows]
            omega
          · simp [script_loop_go, hl, he, hd, hrows]

theorem script_loop_go_genCalls_pos (llm : Nat → Except String String)
    (db : String → Except String ResultSet) (q s : String)
    (r a : Nat) (em sq : Option String) (d : Option ResultSet) (h : 0 < r) :
    0 < (script_loop_go llm db q s a em sq d r).genCalls := by
  cases r with
  | zero => omega
  | succ n =>
    cases hl : llm a with
    | error e => simp [script_loop_go, hl]
    | ok raw =>
      cases he : extract_valid_sql (pyStrip raw) with
      | error ve => simp [script_loop_go, hl, he]
      | ok sql =>
        cases hd : db sql with
        | error pe => simp [script_loop_go, hl, he, hd]
        | ok rows =>
          by_cases hrows : rows.isEmpty
          · simp [script_loop_go, hl, he, hd, hrows]
          · simp [script_loop_go, hl, he, hd, hrows]

theorem query_database_go_first_prompt (llm : Nat → Except String String)
    (db : String → Except String ResultSet) (q s : String)
    (r a : Nat) (em sq : Option String) (h : 0 < r) :
    (query_database_go llm db q s a em sq r).prompts.getD 0 "" =
      build_sql_prompt q s em sq := by
  cases r with
  | zero => omega
  | succ n =>
    cases hl : llm a with
    | error e => simp [query_database_go, hl]
    | ok raw =>
      cases he : extract_valid_sql (pyStrip raw) with
      | error ve => simp [query_database_go, hl, he]
      | ok sql =>
        cases hd : db sql with
        | error pe => simp [query_database_go, hl, he, hd]
        | ok data => simp [query_database_go, hl, he, hd]

theorem query_database_go_none_exhausts (llm : Nat → Except String String)
    (db : String → Except String ResultSet) (q s : String) :
    ∀ (r a : Nat) (em sq : Option String),
      (query_database_go llm db q s a em sq r).result = none →
      (query_database_go llm db q s a em sq r).genCalls = r := by
  intro r
  induction r with
  | zero => intro a em sq _; simp [query_database_go]
  | succ n ih =>
    intro a em sq hres
    cases hl : llm a with
    | error e =>
      have h2 := ih (a + 1) (some e) sq
      simp [query_database_go, hl] at hres ⊢
      exact h2 hres
    | ok raw =>
      cases he : extract_valid_sql (pyStrip raw) with
      | error ve =>
        have h2 := ih (a + 1) (some ve) sq
        simp [query_database_go, hl, he] at hres ⊢
        exact h2 hres
      | ok sql =>
        cases hd : db sql with
        | error pe =>
          have h2 := ih (a + 1) (some ("MySQL Error: " ++ pe)) (some sql)
          simp [query_database_go, hl, he, hd] at hres ⊢
          exact h2 hres
        | ok data =>
          simp [query_database_go, hl, he, hd] at hres

theorem query_database_go_success_from_db (llm : Nat → Except String String)
    (db : String → Except String ResultSet) (q s : String) :
    ∀ (r a : Nat) (em sq : Option String) (d : ResultSet),
      (query_database_go llm db q s a em sq r).result = some d →
      ∃ sql, sql ∈ (query_database_go llm db q s a em sq r).executed ∧
        db sql = Except.ok d := by
  intro r
  induction r with
  | zero => intro a em sq d h; simp [query_database_go] at h
  | succ n ih =>
    intro a em sq d hres
    cases hl : llm a with
    | error e =>
      have h2 := ih (a + 1) (some e) sq d
      simp [query_database_go, hl] at hres ⊢
      exact h2 hres
    | ok raw =>
      cases he : extract_valid_sql (pyStrip raw) with
      | error ve =>
        have h2 := ih (a + 1) (some ve) sq d
        simp [query_database_go, hl, he] at hres ⊢
        exact h2 hres
      | ok sql =>
        cases hd : db sql with
        | error pe =>
          have h2 := ih (a + 1) (some ("MySQL Error: " ++ pe)) (some sql) d
          simp [query_database_go, hl, he, hd] at hres ⊢
          exact h2 hres
        | ok data =>
          simp [query_database_go, hl, he, hd] at hres ⊢
          subst hres
          rfl

theorem extract_ok_no_top (t sql : String)
    (h : extract_valid_sql t = Except.ok sql) :
    containsSubstr (pyUpper sql) "TOP" = false := by
  unfold extract_valid_sql at h
  cases hm : reSearchSelect t.data with
  | none => rw [hm] at h; exact absurd h (by simp)
  | some m =>
    rw [hm] at h
    dsimp only [] at h
    by_cases htop : containsSubstr (pyUpper (pyStrip (String.mk m))) "TOP"
    · rw [if_pos htop] at h; exact absurd h (by simp)
    · rw [if_neg htop] at h
      have : pyStrip (String.mk m) = sql := by
        exact Except.ok.inj h
      rw [← this]
      exact Bool.of_not_eq_true htop

theorem extract_ok_matched (t sql : String)
    (h : extract_valid_sql t = Except.ok sql) :
    ∃ m, reSearchSelect t.data = some m ∧ sql = pyStrip (String.mk m) := by
  unfold extract_valid_sql at h
  cases hm : reSearchSelect t.data with
  | none => rw [hm] at h; exact absurd h (by simp)
  | some m =>
    rw [hm] at h
    dsimp only [] at h
    by_cases htop : containsSubstr (pyUpper (pyStrip (String.mk m))) "TOP"
    · rw [if_pos htop] at h; exact absurd h (by simp)
    · rw [if_neg htop] at h
      exact ⟨m, rfl, (Except.ok.inj h).symm⟩

theorem query_database_go_executed_validated (llm : Nat → Except String String)
    (db : String → Except String ResultSet) (q s : String) :
    ∀ (r a : Nat) (em sq : Option String) (x : String),
      x ∈ (query_database_go llm db q s a em sq r).executed →
      ∃ raw, extract_valid_sql raw = Except.ok x := by
  intro r
  induction r with
  | zero => intro a em sq x hx; simp [query_database_go] at hx
  | succ n ih =>
    intro a em sq x hx
    cases hl : llm a with
    | error e =>
      simp [query_database_go, hl] at hx
      exact ih (a + 1) (some e) sq x hx
    | ok raw =>
      cases he : extract_valid_sql (pyStrip raw) with
      | error ve =>
        simp [query_database_go, hl, he] at hx
        exact ih (a + 1) (some ve) sq x hx
      | ok sql =>
        cases hd : db sql with
        | error pe =>
          simp [query_database_go, hl, he, hd] at hx
          rcases hx with hx | hx
          · exact ⟨pyStrip raw, hx ▸ he⟩
          · exact ih (a + 1) (some ("MySQL Error: " ++ pe)) (some sql) x hx
        | ok data =>
          simp [query_database_go, hl, he, hd] at hx
          exact ⟨pyStrip raw, hx ▸ he⟩

theorem script_loop_go_executed_validated (llm : Nat → Except String String)
    (db : String → Except String ResultSet) (q s : String) :
    ∀ (r a : Nat) (em sq : Option String) (d : Option ResultSet) (x : String),
      x ∈ (script_loop_go llm db q s a em sq d r).executed →
      ∃ raw, extract_valid_sql raw = Except.ok x := by
  intro r
  induction r with
  | zero => intro a em sq d x hx; simp [script_loop_go] at hx
  | succ n ih =>
    intro a em sq d x hx
    cases hl : llm a with
    | error e =>
      simp [script_loop_go, hl] at hx
      exact ih (a + 1) (some e) sq d x hx
    | ok raw =>
      cases he : extract_valid_sql (pyStrip raw) with
      | error ve =>
        simp [script_loop_go, hl, he] at hx
        exact ih (a + 1) (some ve) sq d x hx
      | ok sql =>
        cases hd : db sql with
        | error pe =>
          simp [script_loop_go, hl, he, hd] at hx
          rcases hx with hx | hx
          · exact ⟨pyStrip raw, hx ▸ he⟩
          · exact ih (a + 1) (some ("MySQL Error: " ++ pe)) (some sql) d x hx
        | ok rows =>
          by_cases hrows : rows.isEmpty
          · simp [script_loop_go, hl, he, hd, hrows] at hx
            rcases hx with hx | hx
            · exact ⟨pyStrip raw, hx ▸ he⟩
            · exact ih (a + 1)
                (some "Query ran successfully but returned no results.")
                (some sql) (some rows) x hx
          · simp [script_loop_go, hl, he, hd, hrows] at hx
            exact ⟨pyStrip raw, hx ▸ he⟩

theorem listContains_append_middle (p : List Char) :
    ∀ (a b : List Char), listContains (a ++ (p ++ b)) p = true := by
  intro a
  induction a with
  | nil =>
    intro b
    cases p with
    | nil => cases b <;> simp [listContains]
    | cons c cs =>
      simp only [List.nil_append, List.cons_append, listContains]
      have : List.isPrefixOf (c :: cs) (c :: (cs ++ b)) = true := by
        rw [List.isPrefixOf_iff_prefix]
        exact ⟨b, by simp⟩
      simp [this]
  | cons x xs ih =>
    intro b
    simp only [List.cons_append, listContains]
    have := ih b
    simp [this]

theorem containsSubstr_of_data (s p : String) (l r : List Char)
    (h : s.data = l ++ (p.data ++ r)) : containsSubstr s p = true := by
  unfold containsSubstr
  rw [h]
  exact listContains_append_middle p.data l r

theorem findSemi_take : ∀ (l : List Char) (k : Nat),
    findSemi l = some k → l.take (k + 1) = l.take k ++ [';'] := by
  intro l
  induction l with
  | nil => intro k h; simp [findSemi] at h
  | cons c cs ih =>
    intro k h
    simp only [findSemi] at h
    by_cases hc : c == ';'
    · rw [if_pos hc] at h
      have hk : 0 = k := Option.some.inj h
      subst hk
      have hc2 : c = ';' := eq_of_beq hc
      subst hc2
      rfl
    · rw [if_neg hc] at h
      cases hfs : findSemi cs with
      | none => rw [hfs] at h; simp at h
      | some k2 =>
        rw [hfs] at h
        simp at h
        subst h
        simp only [List.take_succ_cons, List.cons_append]
        rw [ih k2 hfs]

theorem isPySpace_false_of_upper_S (a : Char) (h : a.toUpper = 'S') :
    isPySpace a = false := by
  cases hb : isPySpace a with
  | false => rfl
  | true =>
    exfalso
    have h6 : a = ' ' ∨ a = '\t' ∨ a = '\n' ∨ a = '\r' ∨ a = '\x0b' ∨ a = '\x0c' := by
      simpa [isPySpace, or_assoc] using hb
    rcases h6 with rfl | rfl | rfl | rfl | rfl | rfl <;> exact absurd h (by decide)

theorem matchSelectAt_shape (cs m : List Char) (h : matchSelectAt cs = some m) :
    ∃ c mid, m = c :: (mid ++ [';']) ∧ isPySpace c = false := by
  rcases cs with _ | ⟨a, cs⟩; · simp [matchSelectAt] at h
  rcases cs with _ | ⟨b, cs⟩; · simp [matchSelectAt] at h
  rcases cs with _ | ⟨c, cs⟩; · simp [matchSelectAt] at h
  rcases cs with _ | ⟨d, cs⟩; · simp [matchSelectAt] at h
  rcases cs with _ | ⟨e, cs⟩; · simp [matchSelectAt] at h
  rcases cs with _ | ⟨f, cs⟩; · simp [matchSelectAt] at h
  rcases cs with _ | ⟨w, cs⟩; · simp [matchSelectAt] at h
  rcases cs with _ | ⟨d0, ds⟩; · simp [matchSelectAt] at h
  simp only [matchSelectAt] at h
  cases hsel : (matchesSelectCI a b c d e f && isPySpace w) with
  | false => rw [hsel] at h; simp at h
  | true =>
    rw [hsel] at h
    simp only [if_true] at h
    cases hfs : findSemi ds with
    | none => rw [hfs] at h; simp at h
    | some k =>
      rw [hfs] at h
      simp only [Option.some.injEq] at h
      subst h
      have hsplit : (a :: b :: c :: d :: e :: f :: w :: d0 :: ds) =
          [a, b, c, d, e, f, w, d0] ++ ds := rfl
      rw [hsplit, List.take_append_eq_append_take]
      have hlen : [a, b, c, d, e, f, w, d0].length ≤ 9 + k := by simp; omega
      rw [List.take_of_length_le hlen]
      have hsub : 9 + k - [a, b, c, d, e, f, w, d0].length = k + 1 := by simp; omega
      rw [hsub, findSemi_take ds k hfs]
      have hup : a.toUpper = 'S' := by
        have := (Bool.and_eq_true _ _).mp hsel
        have h1 := this.1
        simp [matchesSelectCI, and_assoc] at h1
        exact h1.1
      exact ⟨a, [b, c, d, e, f, w, d0] ++ ds.take k,
        by simp, isPySpace_false_of_upper_S a hup⟩

theorem pyStrip_cons_semi (c : Char) (mid : List Char) (hc : isPySpace c = false) :
    pyStrip (String.mk (c :: (mid ++ [';']))) = String.mk (c :: (mid ++ [';'])) := by
  have h1 : isPySpace ';' = false := by decide
  simp [pyStrip, hc, h1]

theorem reSearchSelect_strip_noop (cs m : List Char)
    (h : reSearchSelect cs = some m) :
    pyStrip (String.mk m) = String.mk m := by
  induction cs with
  | nil => simp [reSearchSelect] at h
  | cons c0 rest ih =>
    simp only [reSearchSelect] at h
    cases hma : matchSelectAt (c0 :: rest) with
    | some m0 =>
      rw [hma] at h
      simp only [Option.some.injEq] at h
      subst h
      obtain ⟨c, mid, rfl, hcs⟩ := matchSelectAt_shape _ _ hma
      exact pyStrip_cons_semi c mid hcs
    | none =>
      rw [hma] at h
      exact ih h

theorem matchSelectAt_eq_amended : ∀ cs, matchSelectAt cs = amendedMatchSelectAt cs := by
  intro cs
  rcases cs with _ | ⟨a, cs⟩; · rfl
  rcases cs with _ | ⟨b, cs⟩; · rfl
  rcases cs with _ | ⟨c, cs⟩; · rfl
  rcases cs with _ | ⟨d, cs⟩; · rfl
  rcases cs with _ | ⟨e, cs⟩; · rfl
  rcases cs with _ | ⟨f, cs⟩; · rfl
  rcases cs with _ | ⟨w, cs⟩
  · simp [matchSelectAt, amendedMatchSelectAt]
  rcases cs with _ | ⟨d0, ds⟩
  · simp only [matchSelectAt, amendedMatchSelectAt]
    simp [findSemi]
  · simp only [matchSelectAt, amendedMatchSelectAt]
    have hguard :
        (((a :: b :: c :: d :: e :: f :: w :: d0 :: ds).take 6).map Char.toUpper ==
          ['S', 'E', 'L', 'E', 'C', 'T']) = matchesSelectCI a b c d e f := by
      simp [matchesSelectCI, List.beq, Bool.and_assoc]
    simp only [List.drop_succ_cons, List.drop_zero, List.head?_cons]
    rw [hguard]
    cases hsel : (matchesSelectCI a b c d e f && isPySpace w) with
    | false => simp
    | true =>
      simp only [if_true]
      cases hfs : findSemi ds with
      | none => simp
      | some k =>
        have h9 : 9 + k = 8 + (k + 1) := by omega
        simp only [h9]

theorem reSearchSelect_eq_amended : ∀ cs, reSearchSelect cs = amendedSearchSelect cs := by
  intro cs
  induction cs with
  | nil => rfl
  | cons c rest ih =>
    simp only [reSearchSelect, amendedSearchSelect, matchSelectAt_eq_amended (c :: rest)]
    cases amendedMatchSelectAt (c :: rest) with
    | some m => rfl
    | none => exact ih

theorem strJoin_sep (sep : String) :
    ∀ (l : List String) (h : String),
      (h ++ sep) ++ strJoin (l.map (· ++ sep)) = strIntercalate sep (h :: l) ++ sep := by
  intro l
  induction l with
  | nil => intro h; simp [strJoin, strIntercalate]
  | cons x xs ih =>
    intro h
    simp only [List.map_cons, strJoin, strIntercalate]
    rw [ih x]
    simp [String.append_assoc]

theorem renderTable_eq (t : String × List (String × String)) :
    renderTable t = (specTableBlock t ++ "\n") ++ "\n" := by
  unfold renderTable specTableBlock
  have hmap : t.2.map renderColumn = (t.2.map specColumnLine).map (· ++ "\n") := by
    rw [List.map_map]
    rfl
  rw [hmap, strJoin_sep "\n" (t.2.map specColumnLine) ("Table: " ++ t.1)]

theorem strJoin_renderTable (t : String × List (String × String))
    (ts : List (String × List (String × String))) :
    strJoin ((t :: ts).map renderTable) =
      strIntercalate "\n\n" ((t :: ts).map specTableBlock) ++ "\n\n" := by
  have hfun : renderTable = fun u => specTableBlock u ++ "\n\n" := by
    funext u
    rw [renderTable_eq u, String.append_assoc]
    exact congrArg (fun z => specTableBlock u ++ z)
      (show ("\n" : String) ++ "\n" = "\n\n" from rfl)
  rw [hfun]
  have hcomp : (fun u => specTableBlock u ++ "\n\n") =
      ((· ++ "\n\n") ∘ specTableBlock) := rfl
  rw [hcomp, ← List.map_map]
  simp only [List.map_cons, strJoin]
  rw [strJoin_sep "\n\n" (ts.map specTableBlock) (specTableBlock t)]

theorem strIntercalate_cons_head (sep h : String) (l : List String) :
    ∃ y, strIntercalate sep (h :: l) = h ++ y := by
  cases l with
  | nil => exact ⟨"", (String.append_empty h).symm⟩
  | cons x xs =>
    exact ⟨sep ++ strIntercalate sep (x :: xs), by simp [strIntercalate, String.append_assoc]⟩

theorem pyStrip_append_nn_of_headT (X : String) (r : List Char)
    (hr : X.data = 'T' :: r) : pyStrip (X ++ "\n\n") = pyRstrip X := by
  unfold pyStrip pyRstrip
  congr 1
  rw [String.data_append, hr]
  have h2 : ("\n\n" : String).data = ['\n', '\n'] := rfl
  rw [h2]
  simp [List.dropWhile_cons, (by decide : isPySpace 'T' = false),
    (by decide : isPySpace '\n' = true), List.reverse_append]

/-! ## Claim theorems -/

/-- C8: for every non-empty list of tables with their columns, the schema
renderer produces exactly one block per table — header `Table: <name>`
followed by one line `- <name> (<type>)` per column — blocks separated by a
blank line, and the whole text right-trimmed.  Proved as equality of the
code's rendering loop with the specification-side renderer. -/
theorem c8_schema_rendering (tables : List (String × List (String × String)))
    (h : tables ≠ []) : renderSchemaText tables = specSchemaText tables := by
  obtain ⟨t, ts, rfl⟩ := List.exists_cons_of_ne_nil h
  unfold renderSchemaText specSchemaText
  rw [strJoin_renderTable t ts]
  simp only [List.map_cons]
  obtain ⟨y2, hy2⟩ := strIntercalate_cons_head "\n" ("Table: " ++ t.1) (t.2.map specColumnLine)
  obtain ⟨y1, hy1⟩ := strIntercalate_cons_head "\n\n" (specTableBlock t) (ts.map specTableBlock)
  have hblockdata : (strIntercalate "\n\n" (specTableBlock t :: ts.map specTableBlock)).data
      = 'T' :: ("able: ".data ++ (t.1.data ++ (y2.data ++ y1.data))) := by
    rw [hy1]
    have hspec : specTableBlock t = ("Table: " ++ t.1) ++ y2 := by
      unfold specTableBlock
      exact hy2
    rw [hspec]
    simp only [String.data_append]
    simp [List.append_assoc]
  exact pyStrip_append_nn_of_headT _ _ hblockdata

/-- Witness for C8 at a concrete schema. -/
theorem c8_witness :
    ([("Students", [("id", "int")])] : List (String × List (String × String))) ≠ [] ∧
    renderSchemaText [("Students", [("id", "int")])] =
      specSchemaText [("Students", [("id", "int")])] :=
  ⟨by decide, c8_schema_rendering _ (by decide)⟩

/-- C1: for every question, schema and retry budget, the
generate-validate-execute loop — `DatabaseAgent.query_database` and the
script's `while attempt < MAX_RETRIES` loop — performs at most
`max_retries` LLM generation calls; termination is intrinsic, since both
loops are total functions of the shrinking remaining-attempt count. -/
theorem c1_retry_loop_bounded (llm : Nat → Except String String)
    (db : String → Except String ResultSet) (q s : String) (n m : Nat) :
    (query_database llm db q s n).genCalls ≤ n ∧
    (script_loop llm db q s m).genCalls ≤ m :=
  ⟨query_database_go_genCalls_le llm db q s n 0 none none,
   script_loop_go_genCalls_le llm db q s m 0 none none none⟩

/-- C7: if the first response yields an extractable SELECT that passes
validation, executes without a database error and returns at least one
row, both loop variants succeed on attempt 1 with exactly one generation
call and return that row set. -/
theorem c7_first_attempt_success (llm : Nat → Except String String)
    (db : String → Except String ResultSet) (q s r0 sql : String)
    (rows : ResultSet) (n : Nat) (hn : 0 < n)
    (h0 : llm 0 = Except.ok r0)
    (he : extract_valid_sql (pyStrip r0) = Except.ok sql)
    (hd : db sql = Except.ok rows)
    (hne : rows ≠ []) :
    (query_database llm db q s n).result = some rows ∧
    (query_database llm db q s n).genCalls = 1 ∧
    (script_loop llm db q s n).result = some rows ∧
    (script_loop llm db q s n).genCalls = 1 := by
  obtain ⟨rows0, rows', rfl⟩ := List.exists_cons_of_ne_nil hne
  obtain ⟨n', rfl⟩ : ∃ n', n = n' + 1 := ⟨n - 1, by omega⟩
  refine ⟨?_, ?_, ?_, ?_⟩ <;>
    simp [query_database, script_loop, query_database_go, script_loop_go, h0, he, hd]

/-- Witness for C7 with concrete stubs. -/
theorem c7_witness :
    (query_database llmStubGood dbStubOneRow "q" "S" 2).result = some [[("x", "1")]] ∧
    (query_database llmStubGood dbStubOneRow "q" "S" 2).genCalls = 1 ∧
    (script_loop llmStubGood dbStubOneRow "q" "S" 2).result = some [[("x", "1")]] ∧
    (script_loop llmStubGood dbStubOneRow "q" "S" 2).genCalls = 1 :=
  c7_first_attempt_success llmStubGood dbStubOneRow "q" "S"
    "SELECT a FROM t;" "SELECT a FROM t;" [[("x", "1")]] 2
    (by decide) rfl rfl rfl (by decide)

/-- C10: every statement either loop passes to the database for execution
was previously returned by the extractor/validator — it matched the
SELECT-to-semicolon pattern and passed the TOP check. -/
theorem c10_executed_sql_validated (llm : Nat → Except String String)
    (db : String → Except String ResultSet) (q s : String) (n m : Nat)
    (x : String)
    (hx : x ∈ (query_database llm db q s n).executed ∨
      x ∈ (script_loop llm db q s m).executed) :
    (∃ raw, extract_valid_sql raw = Except.ok x) ∧
    containsSubstr (pyUpper x) "TOP" = false := by
  have hvalid : ∃ raw, extract_valid_sql raw = Except.ok x := by
    rcases hx with hx | hx
    · exact query_database_go_executed_validated llm db q s n 0 none none x hx
    · exact script_loop_go_executed_validated llm db q s m 0 none none none x hx
  obtain ⟨raw, hraw⟩ := hvalid
  exact ⟨⟨raw, hraw⟩, extract_ok_no_top raw x hraw⟩

/-- Witness for C10 with concrete stubs. -/
theorem c10_witness :
    ("SELECT a FROM t;" ∈ (query_database llmStubGood dbStubOneRow "q" "S" 2).executed) ∧
    ((∃ raw, extract_valid_sql raw = Except.ok "SELECT a FROM t;") ∧
      containsSubstr (pyUpper "SELECT a FROM t;") "TOP" = false) :=
  ⟨by decide,
   c10_executed_sql_validated llmStubGood dbStubOneRow "q" "S" 2 2
     "SELECT a FROM t;" (Or.inl (by decide))⟩

/-- C3 counterexample: in `DatabaseAgent.query_database` a successful
execution returning zero rows is returned as a success on attempt 1 —
there is no EmptyResult retry in that variant. -/
theorem c3_counterexample :
    (query_database llmStubGood dbStubEmpty "q" "S" 2).result = some [] ∧
    (query_database llmStubGood dbStubEmpty "q" "S" 2).genCalls = 1 :=
  ⟨rfl, rfl⟩

/-- C3 amended: the zero-rows-is-a-failure policy lives in the standalone
script's loop, which raises the EmptyResult `ValueError` and retries,
while `DatabaseAgent.query_database` returns the empty row set as a
success after a single generation call. -/
theorem c3_empty_result_amended (llm : Nat → Except String String)
    (db : String → Except String ResultSet) (q s r0 sql : String) (n : Nat)
    (hn : 2 ≤ n)
    (h0 : llm 0 = Except.ok r0)
    (he : extract_valid_sql (pyStrip r0) = Except.ok sql)
    (hd : db sql = Except.ok ([] : ResultSet)) :
    2 ≤ (script_loop llm db q s n).genCalls ∧
    (query_database llm db q s n).result = some [] ∧
    (query_database llm db q s n).genCalls = 1 := by
  obtain ⟨n', rfl⟩ : ∃ n', n = n' + 1 := ⟨n - 1, by omega⟩
  have hn' : 0 < n' := by omega
  refine ⟨?_, ?_, ?_⟩
  · have hpos := script_loop_go_genCalls_pos llm db q s n' 1
      (some "Query ran successfully but returned no results.") (some sql) (some []) hn'
    simp [script_loop, script_loop_go, h0, he, hd]
    omega
  · simp [query_database, query_database_go, h0, he, hd]
  · simp [query_database, query_database_go, h0, he, hd]

/-- Witness for C3's amended statement with concrete stubs. -/
theorem c3_witness :
    2 ≤ (script_loop llmStubGood dbStubEmpty "q" "S" 2).genCalls ∧
    (query_database llmStubGood dbStubEmpty "q" "S" 2).result = some [] ∧
    (query_database llmStubGood dbStubEmpty "q" "S" 2).genCalls = 1 :=
  c3_empty_result_amended llmStubGood dbStubEmpty "q" "S"
    "SELECT a FROM t;" "SELECT a FROM t;" 2 (by decide) rfl rfl rfl

/-- C6 counterexample: on exhaustion `DatabaseAgent.query_database` returns
`None`; two runs whose accumulated last errors differ return the very same
value, so the last ErrorDescriptor is not part of the returned outcome. -/
theorem c6_counterexample :
    (query_database llmStubNoSql dbStubOneRow "q" "S" 2).result = none ∧
    (query_database llmStubGood dbStubError "q" "S" 2).result = none ∧
    (query_database llmStubNoSql dbStubOneRow "q" "S" 2).lastError ≠
      (query_database llmStubGood dbStubError "q" "S" 2).lastError := by
  refine ⟨rfl, rfl, ?_⟩
  decide

/-- C6 amended: when the budget is exhausted the loop returns `None` — a
definitive failure reached only after the full budget of generation
calls — and it never fabricates a success: any returned row set came from
executing one of the validated statements against the database. -/
theorem c6_failure_outcome_amended (llm : Nat → Except String String)
    (db : String → Except String ResultSet) (q s : String) (n : Nat) :
    ((query_database llm db q s n).result = none →
      (query_database llm db q s n).genCalls = n) ∧
    (∀ d, (query_database llm db q s n).result = some d →
      ∃ sql, sql ∈ (query_database llm db q s n).executed ∧
        db sql = Except.ok d) :=
  ⟨query_database_go_none_exhausts llm db q s n 0 none none,
   fun d => query_database_go_success_from_db llm db q s n 0 none none d⟩

/-- Witness for C6's amended statement with concrete stubs. -/
theorem c6_witness :
    (query_database llmStubNoSql dbStubOneRow "q" "S" 2).result = none ∧
    (query_database llmStubNoSql dbStubOneRow "q" "S" 2).genCalls = 2 :=
  ⟨rfl, (c6_failure_outcome_amended llmStubNoSql dbStubOneRow "q" "S" 2).1 rfl⟩

/-- C4 counterexample: the validator checks `"TOP" in sql.upper()` — a
substring test, not a token test.  `SELECT laptop FROM t;` contains no
`TOP` token, yet it is rejected with the DisallowedSyntax error. -/
theorem c4_counterexample :
    extract_valid_sql "SELECT laptop FROM t;" = Except.error topKeywordError ∧
    hasTopToken "SELECT laptop FROM t;" = false := by
  refine ⟨rfl, ?_⟩
  decide

/-- C4 amended: the validator rejects the extracted statement iff its
uppercased text contains `TOP` as a substring (even inside a longer
identifier); statements without that substring pass validation. -/
theorem c4_top_substring_amended (text : String) (m : List Char)
    (hm : reSearchSelect text.data = some m) :
    (extract_valid_sql text = Except.error topKeywordError ↔
      containsSubstr (pyUpper (pyStrip (String.mk m))) "TOP" = true) ∧
    (containsSubstr (pyUpper (pyStrip (String.mk m))) "TOP" = false →
      extract_valid_sql text = Except.ok (pyStrip (String.mk m))) := by
  have hval : extract_valid_sql text =
      (if containsSubstr (pyUpper (pyStrip (String.mk m))) "TOP" then
        Except.error topKeywordError
      else Except.ok (pyStrip (String.mk m))) := by
    unfold extract_valid_sql
    rw [hm]
  rw [hval]
  by_cases htop : containsSubstr (pyUpper (pyStrip (String.mk m))) "TOP" = true <;>
    simp [htop]

/-- Witness for C4's amended statement at a concrete statement. -/
theorem c4_witness :
    reSearchSelect ("SELECT TOP 1 FROM t;".data) = some ("SELECT TOP 1 FROM t;".data) ∧
    ((extract_valid_sql "SELECT TOP 1 FROM t;" = Except.error topKeywordError ↔
      containsSubstr (pyUpper (pyStrip (String.mk ("SELECT TOP 1 FROM t;".data)))) "TOP" = true) ∧
    (containsSubstr (pyUpper (pyStrip (String.mk ("SELECT TOP 1 FROM t;".data)))) "TOP" = false →
      extract_valid_sql "SELECT TOP 1 FROM t;" =
        Except.ok (pyStrip (String.mk ("SELECT TOP 1 FROM t;".data))))) :=
  ⟨by decide, c4_top_substring_amended "SELECT TOP 1 FROM t;" _ (by decide)⟩

/-- C5 counterexample: on the input `SELECT ;` a substring starting with
the SELECT keyword and running up to and including the next semicolon
exists (the spec-side search finds it), yet the code's regex finds no
match and extraction fails with NoStatementFound: the regex additionally
requires a whitespace character after the keyword and at least one more
character before the semicolon. -/
theorem c5_counterexample :
    extract_valid_sql "SELECT ;" = Except.error noStatementError ∧
    specSearchSelect ("SELECT ;".data) = some ("SELECT ;".data) := by
  refine ⟨rfl, ?_⟩
  decide

/-- C5 amended: extraction finds the first substring consisting of the
case-insensitive SELECT keyword, a whitespace character, and at least one
further character, up to and including the first semicolon at offset at
least 8 from the keyword (the amended positional rule); when no such
substring exists extraction fails with NoStatementFound, and when one is
found and passes the TOP check it is returned unchanged. -/
theorem c5_extraction_amended (text : String) :
    reSearchSelect text.data = amendedSearchSelect text.data ∧
    (reSearchSelect text.data = none →
      extract_valid_sql text = Except.error noStatementError) ∧
    (∀ m, reSearchSelect text.data = some m →
      containsSubstr (pyUpper (String.mk m)) "TOP" = false →
      extract_valid_sql text = Except.ok (String.mk m)) := by
  refine ⟨reSearchSelect_eq_amended text.data, ?_, ?_⟩
  · intro h
    unfold extract_valid_sql
    rw [h]
  · intro m hm htop
    have hstrip := reSearchSelect_strip_noop text.data m hm
    have hval : extract_valid_sql text =
        (if containsSubstr (pyUpper (pyStrip (String.mk m))) "TOP" then
          Except.error topKeywordError
        else Except.ok (pyStrip (String.mk m))) := by
      unfold extract_valid_sql
      rw [hm]
    rw [hval, hstrip, if_neg (by simp [htop])]

/-- Witness for C5's amended statement at a concrete input. -/
theorem c5_witness :
    reSearchSelect ("x SELECT a FROM t; y".data) = some ("SELECT a FROM t;".data) ∧
    containsSubstr (pyUpper (String.mk ("SELECT a FROM t;".data))) "TOP" = false ∧
    extract_valid_sql "x SELECT a FROM t; y" =
      Except.ok (String.mk ("SELECT a FROM t;".data)) :=
  ⟨by decide, by decide,
   (c5_extraction_amended "x SELECT a FROM t; y").2.2 _ (by decide) (by decide)⟩

set_option maxRecDepth 40000 in
/-- C2 counterexample: with the stub LLM returning the `TOP` statement and
then the corrected `LIMIT` statement, the loop does retry once and succeed
on attempt 2, and the second prompt contains the validation error text —
but it does not contain the previously generated SQL: the extraction
failure raises before `sql_query` is assigned, so the prompt quotes
`None` instead. -/
theorem c2_counterexample :
    containsSubstr ((query_database llmStubTopThenLimit dbStubOneRow "q" "S" 2).prompts.getD 1 "")
      topKeywordError = true ∧
    containsSubstr ((query_database llmStubTopThenLimit dbStubOneRow "q" "S" 2).prompts.getD 1 "")
      "SELECT TOP 5 * FROM Students;" = false ∧
    (query_database llmStubTopThenLimit dbStubOneRow "q" "S" 2).result = some [[("x", "1")]] ∧
    (query_database llmStubTopThenLimit dbStubOneRow "q" "S" 2).genCalls = 2 := by
  refine ⟨by decide, by decide, rfl, rfl⟩

set_option maxRecDepth 40000 in
/-- C2 amended: if attempt 1's response fails validation, the attempt-2
prompt is built from the validation error and a still-`None` previous-SQL
variable: it contains the exact error text verbatim, and quotes `None`
where the previous SQL would be — the rejected SQL itself is not carried
into the prompt. -/
theorem c2_retry_prompt_amended (llm : Nat → Except String String)
    (db : String → Except String ResultSet) (q s r0 ve : String) (n : Nat)
    (hn : 2 ≤ n)
    (h0 : llm 0 = Except.ok r0)
    (he : extract_valid_sql (pyStrip r0) = Except.error ve) :
    (query_database llm db q s n).prompts.getD 1 "" =
      build_sql_prompt q s (some ve) none ∧
    containsSubstr (build_sql_prompt q s (some ve) none) ve = true ∧
    containsSubstr (build_sql_prompt q s (some ve) none)
      ("\nYou previously generated this SQL which failed:\n\n" ++ "None") = true := by
  obtain ⟨n', rfl⟩ : ∃ n', n = n' + 1 := ⟨n - 1, by omega⟩
  have hn' : 0 < n' := by omega
  have hfirst := query_database_go_first_prompt llm db q s n' 1 (some ve) none hn'
  refine ⟨?_, ?_, ?_⟩
  · simp [query_database, query_database_go, h0, he]
    simpa using hfirst
  · apply containsSubstr_of_data _ _
      ((system_instruction ++ "\n\n" ++
        "\nYou previously generated this SQL which failed:\n\n" ++ "None" ++
        "\n\nThe error was:\n").data)
      (("\n\nTry again. ONLY use the tables and columns listed in this schema.\n\n" ++
        ("\nSchema:\n" ++ s ++ "\n\nQuestion: \"" ++ q ++ "\"\n") ++ "\n" ++
        "\nOutput:").data)
    simp [build_sql_prompt, pyStrOpt, List.append_assoc]
  · apply containsSubstr_of_data _ _
      ((system_instruction ++ "\n\n").data)
      (("\n\nThe error was:\n" ++ ve ++
        "\n\nTry again. ONLY use the tables and columns listed in this schema.\n\n" ++
        ("\nSchema:\n" ++ s ++ "\n\nQuestion: \"" ++ q ++ "\"\n") ++ "\n" ++
        "\nOutput:").data)
    simp [build_sql_prompt, pyStrOpt, List.append_assoc]

/-- Witness for C2's amended statement: the spec's own stub scenario. -/
theorem c2_witness :
    (query_database llmStubTopThenLimit dbStubOneRow "q" "S" 2).prompts.getD 1 "" =
      build_sql_prompt "q" "S" (some topKeywordError) none ∧
    containsSubstr (build_sql_prompt "q" "S" (some topKeywordError) none)
      topKeywordError = true ∧
    containsSubstr (build_sql_prompt "q" "S" (some topKeywordError) none)
      ("\nYou previously generated this SQL which failed:\n\n" ++ "None") = true :=
  c2_retry_prompt_amended llmStubTopThenLimit dbStubOneRow "q" "S"
    "SELECT TOP 5 * FROM Students;" topKeywordError 2 (by decide) rfl rfl

/-- C9 counterexample: the standalone script's `get_db_schema` does not
fail when `SHOW TABLES` returns nothing — it returns the empty string —
and the script proceeds to SQL generation with that empty schema. -/
theorem c9_counterexample :
    get_db_schema [] "SchoolDb" (fun _ => []) = "" ∧
    0 < (script_main [] "SchoolDb" (fun _ => []) llmStubGood dbStubOneRow "q" 2).genCalls := by
  refine ⟨rfl, ?_⟩
  decide

/-- C9 amended: in medical_student_analysis, `get_schema` returns `None`
when no tables are found or the table-name key cannot be determined, and
the orchestrator does not proceed to querying on a missing schema; the
standalone script's `get_db_schema`, however, returns an empty string for
an empty table list and the script proceeds to generation regardless. -/
theorem c9_introspection_amended (columnsOf : String → List (String × String))
    (first : Row) (rest : List Row) (dbn q : String)
    (llm : Nat → Except String String) (db : String → Except String ResultSet)
    (n : Nat) (hkey : find_table_key first = none) (hn : 0 < n) :
    get_schema [] columnsOf = none ∧
    get_schema (first :: rest) columnsOf = none ∧
    orchestrator_proceeds_to_query none = false ∧
    get_db_schema [] dbn columnsOf = "" ∧
    0 < (script_main [] dbn columnsOf llm db q n).genCalls := by
  refine ⟨rfl, ?_, rfl, rfl, ?_⟩
  · simp [get_schema, hkey]
  · unfold script_main script_loop
    exact script_loop_go_genCalls_pos llm db q _ n 0 none none none hn

/-- Witness for C9's amended statement at concrete inputs. -/
theorem c9_witness :
    find_table_key [("foo", "x")] = none ∧
    (get_schema [] (fun _ => []) = none ∧
     get_schema [[("foo", "x")]] (fun _ => []) = none ∧
     orchestrator_proceeds_to_query none = false ∧
     get_db_schema [] "SchoolDb" (fun _ => []) = "" ∧
     0 < (script_main [] "SchoolDb" (fun _ => []) llmStubGood dbStubOneRow "q" 2).genCalls) :=
  ⟨by decide,
   c9_introspection_amended (fun _ => []) [("foo", "x")] [] "SchoolDb" "q"
     llmStubGood dbStubOneRow 2 (by decide) (by decide)⟩
